import Mathlib

/-!
# Verification of the a121-rs radar core (presence detector + HAL bridge)

Shallow embedding of the repository's presence-detector wrapper
(`src/detector/presence.rs`, `src/detector/presence/config.rs`) and of the
transport bridge (`src/hal.rs`).  The opaque native engine (the `a121_sys`
call surface) is out of scope for the repository itself; following the
spec's boundary description (§6), its responses are supplied as oracle
parameters (`DetectorEnv`, `ConfigEnv`, `RadarEnv`) and its effectful calls
are recorded in an event trace.  Engine calls that are `const` queries with
no observable effect (such as `acc_detector_presence_get_buffer_size`,
which only writes through an out-pointer into a caller-local variable) are
modelled as pure reads of the oracle and leave no trace event.

The radar handle (`radar.rs`), the sensor error type (`sensor/error.rs`)
and the presence result types (`results.rs`) are code of this repository
that is not under `src/`; they are modelled from the spec where marked.

Machine integers that appear (`u32` buffer sizes, byte buffers) stay well
inside their ranges in every claim, so they are embedded as `Nat`.
-/

set_option autoImplicit false

namespace A121

/-- Effectful events observable at the engine/transport boundary: SPI
exchanges performed by the bridge, engine object creation/destruction and
the engine's effectful detector and sensor operations. -/
inductive Event : Type
  | exchange (dev : Nat) (bytes : List Nat)
  | configCreate (h : Nat)
  | configDestroy (h : Nat)
  | detectorCreate (h : Nat)
  | detectorDestroy (h : Nat)
  | detectorPrepare (h : Nat) (ok : Bool)
  | detectorProcess (h : Nat) (ok : Bool)
  | sensorCalibrate (ok : Bool)
  | sensorMeasure
deriving DecidableEq, Repr

/-- Outcome of a call that may `panic!` (Rust `unwrap`) or hit undefined
behaviour (reading the uninitialized global SPI slot).  The C-callable
transfer callback in `hal.rs` returns `void`: it has no error channel, so
`Outcome` has no typed-error constructor. -/
inductive Outcome (α : Type) : Type
  | ok (a : α)
  | panicked
  | undefinedBehavior
deriving DecidableEq, Repr

/-- Global mutable state of the core: the single `SPI_INSTANCE` slot of
`hal.rs` (the type-erased device pointer, modelled by a device id) and the
trace of effectful events so far, oldest first. -/
structure World : Type where
  slot : Option Nat
  trace : List Event
deriving DecidableEq, Repr

def World.add (w : World) (e : Event) : World :=
  { w with trace := w.trace ++ [e] }

/-- Behaviour of the host-supplied byte-transport devices: a device id and
a written buffer yield either the bytes read back in place
(`transfer_in_place`) or a transport-level error. -/
def Devices : Type := Nat → List Nat → Except Unit (List Nat)

/-! ## Transport bridge (`src/hal.rs`) -/

/-- The `acc_hal_a121_t` value built by `AccHalImpl::new`; the function
pointers (`mem_alloc`, `mem_free`, `transfer`, `log`) are the Lean
functions themselves, so only the plain data field is carried. -/
structure AccHalImpl : Type where
  maxSpiTransferSize : Nat
deriving DecidableEq, Repr

/-- `AccHalImpl::new(spi)`: builds the HAL struct with
`max_spi_transfer_size = u16::MAX` and writes the type-erased device
pointer into the single global slot `SPI_INSTANCE`, overwriting any
previous registration. -/
def AccHalImpl.new (spi : Nat) (w : World) : AccHalImpl × World :=
  ({ maxSpiTransferSize := 65535 }, { w with slot := some spi })

/-- `AccHalImpl::transfer8_function(sensor_id, buffer, buffer_length)`:
reads the global slot at call time, hands the whole buffer to the
registered device for one in-place full-duplex exchange, and `unwrap`s the
result — a transport error panics, it is not returned (the callback's C
signature has no error channel).  Reading the slot before any registration
dereferences an uninitialized `MaybeUninit`, i.e. undefined behaviour. -/
def AccHalImpl.transfer8_function (devs : Devices) (buffer : List Nat) (w : World) :
    Outcome (List Nat) × World :=
  match w.slot with
  | none => (Outcome.undefinedBehavior, w)
  | some dev =>
    let w1 := w.add (Event.exchange dev buffer)
    match devs dev buffer with
    | Except.ok r => (Outcome.ok r, w1)
    | Except.error _ => (Outcome.panicked, w1)

/-- Servicing of a sequence of engine-requested transport exchanges during
a sensor operation: each request goes through the bridge's transfer
callback in order. -/
def serviceExchanges (devs : Devices) (reqs : List (List Nat)) (w : World) : World :=
  reqs.foldl (fun wacc b => (AccHalImpl.transfer8_function devs b wacc).2) w

/-! ## Errors -/

/-- Modelled from the spec: `sensor/error.rs` is not under `src/`.  §7's
error taxonomy for sensor-level operations: `BufferTooSmall`,
`CalibrationFailed`, `PrepareFailed`, `Timeout`. -/
inductive SensorError : Type
  | BufferTooSmall
  | CalibrationFailed
  | PrepareFailed
  | Timeout
deriving DecidableEq, Repr

/-- Modelled from the spec: `results.rs` is not under `src/`.  §4.3 /
§7: `process_data` fails with `ProcessingFailed` when the engine reports
decode failure. -/
inductive ProcessDataError : Type
  | ProcessingFailed
deriving DecidableEq, Repr

/-! ## Radar handle (spec-modelled) -/

/-- Lifecycle states of the radar handle, §3: `State ∈ {Uninitialized,
Ready}`, a type-level tag rather than a runtime flag. -/
inductive RadarState : Type
  | Uninitialized
  | Ready
deriving DecidableEq, Repr

/-- Modelled from the spec: `radar.rs` is not under `src/`.  §2/§3: one
physical sensor — sensor id, enable output, ready-interrupt input, delay
source; the lifecycle state is a phantom type parameter, exactly as the
Rust `Radar<State, ...>` carries it, so Ready-only operations are typed
over `Radar RadarState.Ready` and are unrepresentable on an
`Uninitialized` handle. -/
structure Radar (s : RadarState) : Type where
  sensorId : Nat
  enablePin : Nat
  interruptLine : Nat
  delaySource : Nat
deriving DecidableEq, Repr

/-- The state tag a radar handle carries in its type. -/
def Radar.stateTag {s : RadarState} (_ : Radar s) : RadarState := s

/-- Modelled from the spec: the opaque engine-produced calibration blob
(`acc_cal_result_t`), §3 CalibrationArtifact; its contents are opaque, so
it is carried as an id standing for the blob's address. -/
structure CalibrationResult : Type where
  id : Nat
deriving DecidableEq, Repr

/-- Oracle for the engine's sensor-level behaviour during the radar
handle's `calibrate` and `measure` (spec-modelled, §4.2): the
engine-declared frame size, the raw frame data the engine writes, the
transport exchanges the engine requests while servicing each operation,
whether the ready-interrupt wait times out, and whether calibration
succeeds. -/
structure RadarEnv : Type where
  frameSize : Nat
  frameData : List Nat
  measureExchanges : List (List Nat)
  measureTimeout : Bool
  calibTimeout : Bool
  calibSuccess : Bool
  calibExchanges : List (List Nat)
  calibResultId : Nat

/-- Modelled from the spec: `Radar::calibrate` (§4.2), callable on a
`Ready` handle for re-calibration (§3).  It awaits the ready interrupt,
servicing the engine-requested transport exchanges, and either times out,
fails with `CalibrationFailed`, or produces the calibration artifact. -/
def Radar.calibrate (renv : RadarEnv) (devs : Devices) (_ : Radar RadarState.Ready)
    (w : World) : Except SensorError CalibrationResult × World :=
  if renv.calibTimeout then (Except.error SensorError.Timeout, w)
  else
    let w1 := serviceExchanges devs renv.calibExchanges w
    let w2 := w1.add (Event.sensorCalibrate renv.calibSuccess)
    if renv.calibSuccess then (Except.ok { id := renv.calibResultId }, w2)
    else (Except.error SensorError.CalibrationFailed, w2)

/-- Modelled from the spec: `Radar::measure` (§4.2), Ready only.  Fails
with `BufferTooSmall` if `buffer.len()` is less than the engine-declared
frame size, before any exchange; fails with a sensor error if the
interrupt wait times out; otherwise services the engine-requested
transport exchanges and returns once the frame's raw data has been written
into the buffer. -/
def Radar.measure (renv : RadarEnv) (devs : Devices) (_ : Radar RadarState.Ready)
    (buffer : List Nat) (w : World) : (Except SensorError Unit × List Nat) × World :=
  if buffer.length < renv.frameSize then
    ((Except.error SensorError.BufferTooSmall, buffer), w)
  else if renv.measureTimeout then
    ((Except.error SensorError.Timeout, buffer), w)
  else
    let w1 := serviceExchanges devs renv.measureExchanges w
    let w2 := w1.add Event.sensorMeasure
    ((Except.ok (), renv.frameData.take renv.frameSize ++ buffer.drop renv.frameSize), w2)

/-! ## Presence configuration (`src/detector/presence/config.rs`) -/

/-- `PresenceConfig`: a pointer (`inner`) to the engine-side
`acc_detector_presence_config` object, modelled by the object's id. -/
structure PresenceConfig : Type where
  inner : Nat
deriving DecidableEq, Repr

/-- Oracle for `acc_detector_presence_config_create`: the id of the config
object the engine allocates. -/
structure ConfigEnv : Type where
  createHandle : Nat
deriving DecidableEq, Repr

/-- `PresenceConfig::default()`: calls
`acc_detector_presence_config_create()` and wraps the returned pointer. -/
def PresenceConfig.default (cenv : ConfigEnv) (w : World) : PresenceConfig × World :=
  ({ inner := cenv.createHandle }, w.add (Event.configCreate cenv.createHandle))

/-- `Drop for PresenceConfig`: calls
`acc_detector_presence_config_destroy(self.inner)`. -/
def PresenceConfig.drop (c : PresenceConfig) (w : World) : World :=
  w.add (Event.configDestroy c.inner)

/-! ## Presence detector (`src/detector/presence.rs`) -/

/-- Modelled from the spec: `results.rs` is not under `src/`.  The
engine-filled presence metadata record; its fields are opaque to this
core, so it is carried as one abstract word. -/
structure PresenceMetadata : Type where
  raw : Nat
deriving DecidableEq, Repr

/-- Modelled from the spec: `results.rs` is not under `src/`.  §3
DetectorResult: a presence boolean plus intra/inter presence scores (the
engine's score floats are carried as abstract codes — no claim inspects
their numeric value). -/
structure PresenceResult : Type where
  presenceDetected : Bool
  intraScore : Nat
  interScore : Nat
deriving DecidableEq, Repr

/-- Oracle for the engine's detector-level call surface (§6): what
`acc_detector_presence_create` returns and writes (as functions of the
config object), the `const` buffer-size query (as a function of the
detector handle), and the success/result behaviour of
`acc_detector_presence_prepare` (handle, calibration blob, buffer length)
and `acc_detector_presence_process` (buffer contents). -/
structure DetectorEnv : Type where
  createHandle : Nat → Nat
  createMetadata : Nat → PresenceMetadata
  bufferSize : Nat → Nat
  prepareSuccess : Nat → Nat → Nat → Bool
  prepareWrite : List Nat → List Nat
  processSuccess : List Nat → Bool
  processResult : List Nat → PresenceResult

/-- `InnerPresenceDetector`: the engine detector handle plus the metadata
record the engine filled during creation. -/
structure InnerPresenceDetector : Type where
  presence_metadata : PresenceMetadata
  inner : Nat
deriving DecidableEq, Repr

/-- `InnerPresenceDetector::new(config)`: calls
`acc_detector_presence_create(config.inner, metadata ptr)`, which
allocates the engine detector context and writes the metadata. -/
def InnerPresenceDetector.new (env : DetectorEnv) (config : PresenceConfig)
    (w : World) : InnerPresenceDetector × World :=
  ({ presence_metadata := env.createMetadata config.inner,
     inner := env.createHandle config.inner },
   w.add (Event.detectorCreate (env.createHandle config.inner)))

/-- `Drop for InnerPresenceDetector`: calls
`acc_detector_presence_destroy(self.inner)`. -/
def InnerPresenceDetector.drop (d : InnerPresenceDetector) (w : World) : World :=
  w.add (Event.detectorDestroy d.inner)

/-- `PresenceDetector`: an exclusive borrow of a `Ready`-tagged radar
handle (the field's type requires the `Ready` tag), the inner engine
context wrapper and the stored configuration. -/
structure PresenceDetector : Type where
  radar : Radar RadarState.Ready
  inner : InnerPresenceDetector
  config : PresenceConfig
deriving DecidableEq, Repr

/-- `PresenceDetector::new(radar)`: builds the default configuration, then
the inner engine context from it, and stores radar, inner and config. -/
def PresenceDetector.new (env : DetectorEnv) (cenv : ConfigEnv)
    (radar : Radar RadarState.Ready) (w : World) : PresenceDetector × World :=
  let cw := PresenceConfig.default cenv w
  let iw := InnerPresenceDetector.new env cw.1 cw.2
  ({ radar := radar, inner := iw.1, config := cw.1 }, iw.2)

/-- `PresenceDetector::with_config(radar, config)`: builds the inner
engine context from the provided configuration and stores radar, inner and
config. -/
def PresenceDetector.with_config (env : DetectorEnv)
    (radar : Radar RadarState.Ready) (config : PresenceConfig) (w : World) :
    PresenceDetector × World :=
  let iw := InnerPresenceDetector.new env config w
  ({ radar := radar, inner := iw.1, config := config }, iw.2)

/-- `PresenceDetector::get_buffer_size()`: initializes a local `u32`,
calls the `const` engine query `acc_detector_presence_get_buffer_size`,
which writes the size through the out-pointer, and returns it.  The query
has no observable effect, so the world is returned unchanged. -/
def PresenceDetector.get_buffer_size (env : DetectorEnv) (d : PresenceDetector)
    (w : World) : Nat × World :=
  (env.bufferSize d.inner.inner, w)

/-- `PresenceDetector::calibrate_and_prepare(buffer)`: checks
`buffer.len() < self.get_buffer_size()` first, returning `BufferTooSmall`;
then runs `self.radar.calibrate().await?` (propagating its error); then
calls `acc_detector_presence_prepare` with the calibration blob and the
buffer, returning `Ok(())` on engine-reported success and `PrepareFailed`
otherwise. -/
def PresenceDetector.calibrate_and_prepare (env : DetectorEnv) (renv : RadarEnv)
    (devs : Devices) (d : PresenceDetector) (buffer : List Nat) (w : World) :
    (Except SensorError Unit × List Nat) × World :=
  let buffer_size := (d.get_buffer_size env w).1
  if buffer.length < buffer_size then
    ((Except.error SensorError.BufferTooSmall, buffer), w)
  else
    match Radar.calibrate renv devs d.radar w with
    | (Except.error e, w1) => ((Except.error e, buffer), w1)
    | (Except.ok result, w1) =>
      let ok := env.prepareSuccess d.inner.inner result.id buffer.length
      let w2 := w1.add (Event.detectorPrepare d.inner.inner ok)
      let buffer2 := env.prepareWrite buffer
      if ok then ((Except.ok (), buffer2), w2)
      else ((Except.error SensorError.PrepareFailed, buffer2), w2)

/-- `PresenceDetector::measure(data)`: delegates to
`self.radar.measure(data).await`. -/
def PresenceDetector.measure (renv : RadarEnv) (devs : Devices)
    (d : PresenceDetector) (buffer : List Nat) (w : World) :
    (Except SensorError Unit × List Nat) × World :=
  Radar.measure renv devs d.radar buffer w

/-- `PresenceDetector::process_data(buffer)`: calls
`acc_detector_presence_process`, updates the result record from the
engine-filled record regardless of the reported flag, then returns
`Ok(result)` on engine-reported success and `ProcessingFailed`
otherwise. -/
def PresenceDetector.process_data (env : DetectorEnv) (d : PresenceDetector)
    (buffer : List Nat) (w : World) : Except ProcessDataError PresenceResult × World :=
  let ok := env.processSuccess buffer
  let result := env.processResult buffer
  let w1 := w.add (Event.detectorProcess d.inner.inner ok)
  if ok then (Except.ok result, w1)
  else (Except.error ProcessDataError.ProcessingFailed, w1)

/-! ## Concrete sample instances (used by witnesses and counterexamples) -/

/-- A concrete Ready-tagged radar handle. -/
def sampleRadar : Radar RadarState.Ready :=
  { sensorId := 1, enablePin := 2, interruptLine := 3, delaySource := 4 }

/-- A concrete presence configuration object. -/
def sampleConfig : PresenceConfig := { inner := 5 }

/-- A concrete inner detector wrapper. -/
def sampleInner : InnerPresenceDetector :=
  { presence_metadata := { raw := 0 }, inner := 11 }

/-- A concrete presence detector. -/
def sampleDetector : PresenceDetector :=
  { radar := sampleRadar, inner := sampleInner, config := sampleConfig }

/-- A concrete detector-level engine oracle: the engine declares a work
buffer of 4 bytes, prepare and process always succeed. -/
def sampleDetEnv : DetectorEnv :=
  { createHandle := fun c => c + 6,
    createMetadata := fun c => { raw := c },
    bufferSize := fun _ => 4,
    prepareSuccess := fun _ _ _ => true,
    prepareWrite := fun b => b,
    processSuccess := fun _ => true,
    processResult := fun b => { presenceDetected := true, intraScore := b.length, interScore := 0 } }

/-- A concrete sensor-level engine oracle: the engine-declared frame size
is 2 bytes (strictly below `sampleDetEnv`'s 4-byte work-buffer size), one
transport exchange of `[1, 2]` is requested per measurement, nothing times
out and calibration succeeds. -/
def sampleRadarEnv : RadarEnv :=
  { frameSize := 2, frameData := [9, 9], measureExchanges := [[1, 2]],
    measureTimeout := false, calibTimeout := false, calibSuccess := true,
    calibExchanges := [[3]], calibResultId := 7 }

/-- A transport device that echoes the written bytes back. -/
def devEcho : Devices := fun _ b => Except.ok b

/-- A transport device that always reports a transport-level error. -/
def devFail : Devices := fun _ _ => Except.error ()

/-- A world whose transport slot holds device 0 and whose trace is empty. -/
def wReg : World := { slot := some 0, trace := [] }

/-! ## Claims -/

/-- C2: a `PresenceDetector` can only be constructed over a radar handle
whose type tag is `Ready` — the `radar` field's type is
`Radar RadarState.Ready`, and `Radar.measure` (hence
`PresenceDetector.measure`) is typed over `Radar RadarState.Ready` only —
so calling `measure` before the handle reaches `Ready` is unrepresentable
at the type level; the proof is definitional, exactly because the check is
a typing fact and not a runtime test. -/
theorem claim_c2_measure_requires_ready (d : PresenceDetector) :
    d.radar.stateTag = RadarState.Ready := rfl

/-- C8: `get_buffer_size()` is a pure query: two calls with no intervening
configuration change return the same value, the call leaves the world
(engine and transport state) unchanged, and an intervening `measure` —
which touches no configuration — does not change the value either. -/
theorem claim_c8_get_buffer_size_pure (env : DetectorEnv) (renv : RadarEnv)
    (devs : Devices) (d : PresenceDetector) (buffer : List Nat) (w : World) :
    (d.get_buffer_size env w).1 = (d.get_buffer_size env (d.get_buffer_size env w).2).1 ∧
    (d.get_buffer_size env w).2 = w ∧
    (d.get_buffer_size env (PresenceDetector.measure renv devs d buffer w).2).1 =
      (d.get_buffer_size env w).1 :=
  ⟨rfl, rfl, rfl⟩

/-- C9: `PresenceDetector::measure(buffer)` is behaviourally identical to
calling `measure(buffer)` on the underlying radar handle: same result,
same buffer contents, same effect on the world; the detector value itself
is left untouched by both. -/
theorem claim_c9_measure_delegates (renv : RadarEnv) (devs : Devices)
    (d : PresenceDetector) (buffer : List Nat) (w : World) :
    PresenceDetector.measure renv devs d buffer w =
      Radar.measure renv devs d.radar buffer w := rfl

/-- C10: `PresenceDetector::new(radar)` constructs exactly the same
detector, with exactly the same engine effects, as
`PresenceDetector::with_config(radar, PresenceConfig::default())`: both
build the engine context from the freshly created default configuration
and store that configuration in the detector. -/
theorem claim_c10_new_eq_with_config_default (env : DetectorEnv) (cenv : ConfigEnv)
    (radar : Radar RadarState.Ready) (w : World) :
    PresenceDetector.new env cenv radar w =
      PresenceDetector.with_config env radar (PresenceConfig.default cenv w).1
        (PresenceConfig.default cenv w).2 := rfl

/-- C1 counterexample: with the engine declaring frame size 2 (the bound
the radar handle checks) and detector work-buffer size 4, a 3-byte buffer
satisfies `buffer.len() < get_buffer_size()`, yet
`PresenceDetector::measure` succeeds — it does not return `BufferTooSmall`
— and a transport exchange is performed, refuting the claim that *every*
measurement call checks against `get_buffer_size()` and performs no
transport exchange in that case. -/
theorem claim_c1_counterexample :
    ([0, 0, 0] : List Nat).length < (sampleDetector.get_buffer_size sampleDetEnv wReg).1 ∧
    (PresenceDetector.measure sampleRadarEnv devEcho sampleDetector [0, 0, 0] wReg).1.1 =
      Except.ok () ∧
    (PresenceDetector.measure sampleRadarEnv devEcho sampleDetector [0, 0, 0] wReg).2.trace =
      [Event.exchange 0 [1, 2], Event.sensorMeasure] := by
  refine ⟨by decide, rfl, rfl⟩

/-- C1 (amended): `calibrate_and_prepare` checks
`buffer.len() < get_buffer_size()` first and, when it fails, returns
`BufferTooSmall` with the world unchanged — no effectful engine call and
no transport exchange; `measure` delegates its check to the radar handle:
it returns `BufferTooSmall` exactly when (iff) the buffer is shorter than
the engine-declared frame size, a bound that need not equal
`get_buffer_size()`, and in that case the world is unchanged — no
transport exchange. -/
theorem claim_c1_buffer_check (env : DetectorEnv) (renv : RadarEnv) (devs : Devices)
    (d : PresenceDetector) (buffer : List Nat) (w : World) :
    (buffer.length < (d.get_buffer_size env w).1 →
      PresenceDetector.calibrate_and_prepare env renv devs d buffer w =
        ((Except.error SensorError.BufferTooSmall, buffer), w)) ∧
    ((PresenceDetector.measure renv devs d buffer w).1.1 =
        Except.error SensorError.BufferTooSmall ↔
      buffer.length < renv.frameSize) ∧
    (buffer.length < renv.frameSize →
      PresenceDetector.measure renv devs d buffer w =
        ((Except.error SensorError.BufferTooSmall, buffer), w)) := by
  refine ⟨?_, ?_, ?_⟩
  · intro h
    simp only [PresenceDetector.get_buffer_size] at h
    simp [PresenceDetector.calibrate_and_prepare, PresenceDetector.get_buffer_size, h]
  · by_cases h : buffer.length < renv.frameSize
    · simp [PresenceDetector.measure, Radar.measure, h]
    · cases ht : renv.measureTimeout <;>
        simp [PresenceDetector.measure, Radar.measure, h, ht]
  · intro h
    simp [PresenceDetector.measure, Radar.measure, h]

/-- C1 witness: a 1-byte buffer is below both the 4-byte detector buffer
size and the 2-byte frame size, so both calls return `BufferTooSmall` and
leave the world untouched, and the measure biconditional is instantiated
at the same concrete input. -/
theorem claim_c1_witness :
    PresenceDetector.calibrate_and_prepare sampleDetEnv sampleRadarEnv devEcho
        sampleDetector [0] wReg =
      ((Except.error SensorError.BufferTooSmall, [0]), wReg) ∧
    ((PresenceDetector.measure sampleRadarEnv devEcho sampleDetector [0] wReg).1.1 =
        Except.error SensorError.BufferTooSmall ↔
      ([0] : List Nat).length < sampleRadarEnv.frameSize) ∧
    PresenceDetector.measure sampleRadarEnv devEcho sampleDetector [0] wReg =
      ((Except.error SensorError.BufferTooSmall, [0]), wReg) :=
  ⟨(claim_c1_buffer_check sampleDetEnv sampleRadarEnv devEcho sampleDetector [0] wReg).1
      (by decide),
   (claim_c1_buffer_check sampleDetEnv sampleRadarEnv devEcho sampleDetector [0] wReg).2.1,
   (claim_c1_buffer_check sampleDetEnv sampleRadarEnv devEcho sampleDetector [0] wReg).2.2
      (by decide)⟩

/-- C4: registration writes the device into the single global slot,
overwriting any previous registration, and every transfer reads the slot
at call time: in the run `register d1; transfer b1; register d2;
transfer b2`, the first transfer exchanges over `d1`, the re-registration
leaves the already-completed first transfer's outcome and trace entry
intact, and the very next transfer exchanges over `d2`. -/
theorem claim_c4_single_slot_reread (devs : Devices) (d1 d2 : Nat)
    (b1 b2 r1 r2 : List Nat) (w0 : World)
    (h1 : devs d1 b1 = Except.ok r1) (h2 : devs d2 b2 = Except.ok r2) :
    ((AccHalImpl.new d1 w0).2).slot = some d1 ∧
    ((AccHalImpl.new d2
        (AccHalImpl.transfer8_function devs b1 (AccHalImpl.new d1 w0).2).2).2).slot =
      some d2 ∧
    (AccHalImpl.transfer8_function devs b1 (AccHalImpl.new d1 w0).2).1 =
      Outcome.ok r1 ∧
    (AccHalImpl.transfer8_function devs b2 ((AccHalImpl.new d2
        (AccHalImpl.transfer8_function devs b1 (AccHalImpl.new d1 w0).2).2).2)).1 =
      Outcome.ok r2 ∧
    (AccHalImpl.transfer8_function devs b2 ((AccHalImpl.new d2
        (AccHalImpl.transfer8_function devs b1 (AccHalImpl.new d1 w0).2).2).2)).2.trace =
      w0.trace ++ [Event.exchange d1 b1, Event.exchange d2 b2] := by
  simp [AccHalImpl.new, AccHalImpl.transfer8_function, World.add, h1, h2]

/-- C4 witness: registering device 1, transferring `[5]`, re-registering
device 2 and transferring `[6]` over an echo transport exchanges `[5]`
over device 1 and `[6]` over device 2. -/
theorem claim_c4_witness :
    ((AccHalImpl.new 1 { slot := none, trace := [] }).2).slot = some 1 ∧
    ((AccHalImpl.new 2
        (AccHalImpl.transfer8_function devEcho [5]
          (AccHalImpl.new 1 { slot := none, trace := [] }).2).2).2).slot = some 2 ∧
    (AccHalImpl.transfer8_function devEcho [5]
        (AccHalImpl.new 1 { slot := none, trace := [] }).2).1 = Outcome.ok [5] ∧
    (AccHalImpl.transfer8_function devEcho [6] ((AccHalImpl.new 2
        (AccHalImpl.transfer8_function devEcho [5]
          (AccHalImpl.new 1 { slot := none, trace := [] }).2).2).2)).1 =
      Outcome.ok [6] ∧
    (AccHalImpl.transfer8_function devEcho [6] ((AccHalImpl.new 2
        (AccHalImpl.transfer8_function devEcho [5]
          (AccHalImpl.new 1 { slot := none, trace := [] }).2).2).2)).2.trace =
      ({ slot := none, trace := [] } : World).trace ++
        [Event.exchange 1 [5], Event.exchange 2 [6]] :=
  claim_c4_single_slot_reread devEcho 1 2 [5] [6] [5] [6]
    { slot := none, trace := [] } rfl rfl

/-- C5 counterexample: over a device that reports a transport error, the
bridge's transfer callback does not return the error as any typed result —
the callback's C signature has no error channel at all — it `unwrap`s the
error and panics, refuting the claim that a transport-level error
propagates to the caller as a typed engine-reported operation failure. -/
theorem claim_c5_counterexample :
    (AccHalImpl.transfer8_function devFail [1, 2, 3] wReg).1 = Outcome.panicked :=
  rfl

/-- C5 (amended): a transport-level error during a bridge transfer is not
retried — the registered device is invoked exactly once, witnessed by the
single exchange event — but it is fatal: the callback `unwrap`s the error
and panics, so no typed result is returned to any caller. -/
theorem claim_c5_error_fatal_no_retry (devs : Devices) (dev : Nat) (b : List Nat)
    (w : World) (hreg : w.slot = some dev) (hdev : devs dev b = Except.error ()) :
    AccHalImpl.transfer8_function devs b w =
      (Outcome.panicked, { w with trace := w.trace ++ [Event.exchange dev b] }) := by
  simp [AccHalImpl.transfer8_function, hreg, hdev, World.add]

/-- C5 witness: a failing device registered in slot 0, written `[1, 2, 3]`,
is invoked once and the callback panics. -/
theorem claim_c5_witness :
    AccHalImpl.transfer8_function devFail [1, 2, 3] wReg =
      (Outcome.panicked,
        { wReg with trace := wReg.trace ++ [Event.exchange 0 [1, 2, 3]] }) :=
  claim_c5_error_fatal_no_retry devFail 0 [1, 2, 3] wReg rfl rfl

/-- C6: for every registered device and every buffer, the bridge's
transfer callback performs exactly one in-place full-duplex exchange of
exactly the buffer's bytes over the registered device — the single
exchange event carries the whole buffer, with no addressing or framing
added — and the buffer is replaced in place by the device's read-back
bytes when the exchange completes. -/
theorem claim_c6_one_exchange_in_place (devs : Devices) (dev : Nat)
    (b res : List Nat) (w : World)
    (hreg : w.slot = some dev) (hdev : devs dev b = Except.ok res) :
    AccHalImpl.transfer8_function devs b w =
      (Outcome.ok res, { w with trace := w.trace ++ [Event.exchange dev b] }) := by
  simp [AccHalImpl.transfer8_function, hreg, hdev, World.add]

/-- C6 witness: an echo device registered in slot 0, written `[1, 2]`,
performs exactly one exchange of those two bytes and returns them in
place. -/
theorem claim_c6_witness :
    AccHalImpl.transfer8_function devEcho [1, 2] wReg =
      (Outcome.ok [1, 2],
        { wReg with trace := wReg.trace ++ [Event.exchange 0 [1, 2]] }) :=
  claim_c6_one_exchange_in_place devEcho 0 [1, 2] [1, 2] wReg rfl rfl

/-- C3: the engine-reported boolean maps one-to-one onto the typed
results: `process_data` returns `Ok(result)` exactly when the engine's
process call reports success and `ProcessingFailed` exactly when it
reports failure; and `calibrate_and_prepare` returns `PrepareFailed`
exactly when the engine's prepare call is reached (buffer check passed,
radar calibration neither timed out nor failed) and reports failure. -/
theorem claim_c3_engine_bool_typed (env : DetectorEnv) (renv : RadarEnv)
    (devs : Devices) (d : PresenceDetector) (buffer : List Nat) (w : World) :
    ((PresenceDetector.process_data env d buffer w).1 =
        Except.ok (env.processResult buffer) ↔ env.processSuccess buffer = true) ∧
    ((PresenceDetector.process_data env d buffer w).1 =
        Except.error ProcessDataError.ProcessingFailed ↔
      env.processSuccess buffer = false) ∧
    ((PresenceDetector.calibrate_and_prepare env renv devs d buffer w).1.1 =
        Except.error SensorError.PrepareFailed ↔
      (¬ buffer.length < (d.get_buffer_size env w).1 ∧ renv.calibTimeout = false ∧
        renv.calibSuccess = true ∧
        env.prepareSuccess d.inner.inner renv.calibResultId buffer.length = false)) := by
  refine ⟨?_, ?_, ?_⟩
  · cases h : env.processSuccess buffer <;> simp [PresenceDetector.process_data, h]
  · cases h : env.processSuccess buffer <;> simp [PresenceDetector.process_data, h]
  · simp only [PresenceDetector.calibrate_and_prepare, Radar.calibrate,
      PresenceDetector.get_buffer_size]
    by_cases hlen : buffer.length < env.bufferSize d.inner.inner
    · rw [if_pos hlen]
      simp [hlen]
    · rw [if_neg hlen]
      cases ht : renv.calibTimeout
      · cases hs : renv.calibSuccess
        · simp [ht, hs, hlen]
        · cases hp : env.prepareSuccess d.inner.inner renv.calibResultId buffer.length <;>
            simp [ht, hs, hp, hlen]
      · simp [ht, hlen]

/-- C3 witness: a concrete instantiation — always-succeeding engine,
4-byte buffer — of the one-to-one mapping. -/
theorem claim_c3_witness :
    ((PresenceDetector.process_data sampleDetEnv sampleDetector [0, 0, 0, 0] wReg).1 =
        Except.ok (sampleDetEnv.processResult [0, 0, 0, 0]) ↔
      sampleDetEnv.processSuccess [0, 0, 0, 0] = true) ∧
    ((PresenceDetector.process_data sampleDetEnv sampleDetector [0, 0, 0, 0] wReg).1 =
        Except.error ProcessDataError.ProcessingFailed ↔
      sampleDetEnv.processSuccess [0, 0, 0, 0] = false) ∧
    ((PresenceDetector.calibrate_and_prepare sampleDetEnv sampleRadarEnv devEcho
          sampleDetector [0, 0, 0, 0] wReg).1.1 =
        Except.error SensorError.PrepareFailed ↔
      (¬ ([0, 0, 0, 0] : List Nat).length <
          (sampleDetector.get_buffer_size sampleDetEnv wReg).1 ∧
        sampleRadarEnv.calibTimeout = false ∧ sampleRadarEnv.calibSuccess = true ∧
        sampleDetEnv.prepareSuccess sampleInner.inner sampleRadarEnv.calibResultId
          ([0, 0, 0, 0] : List Nat).length = false)) :=
  claim_c3_engine_bool_typed sampleDetEnv sampleRadarEnv devEcho sampleDetector
    [0, 0, 0, 0] wReg

/-! ## Destroy-call accounting (for the destroy-on-drop claim) -/

/-- Events that are engine-handle destroy calls
(`acc_detector_presence_destroy` or
`acc_detector_presence_config_destroy`). -/
def Event.isDestroy : Event → Bool
  | Event.detectorDestroy _ => true
  | Event.configDestroy _ => true
  | _ => false

/-- Number of engine destroy calls recorded in a trace. -/
def destroyCount (es : List Event) : Nat := (es.filter Event.isDestroy).length

theorem destroyCount_append (a b : List Event) :
    destroyCount (a ++ b) = destroyCount a + destroyCount b := by
  simp [destroyCount, List.filter_append]

theorem destroyCount_add_of_not (w : World) (e : Event) (h : e.isDestroy = false) :
    destroyCount (w.add e).trace = destroyCount w.trace := by
  simp [World.add, destroyCount_append, destroyCount, h]

theorem destroyCount_transfer8 (devs : Devices) (b : List Nat) (w : World) :
    destroyCount (AccHalImpl.transfer8_function devs b w).2.trace =
      destroyCount w.trace := by
  unfold AccHalImpl.transfer8_function
  cases hslot : w.slot with
  | none => rfl
  | some dev =>
    cases hdev : devs dev b <;>
      simp [hdev, World.add, destroyCount_append, destroyCount, Event.isDestroy]

theorem destroyCount_serviceExchanges (devs : Devices) (reqs : List (List Nat))
    (w : World) :
    destroyCount (serviceExchanges devs reqs w).trace = destroyCount w.trace := by
  induction reqs generalizing w with
  | nil => rfl
  | cons r rs ih =>
    have h1 : serviceExchanges devs (r :: rs) w =
        serviceExchanges devs rs (AccHalImpl.transfer8_function devs r w).2 := rfl
    rw [h1, ih, destroyCount_transfer8]

theorem destroyCount_calibrate (renv : RadarEnv) (devs : Devices)
    (r : Radar RadarState.Ready) (w : World) :
    destroyCount (Radar.calibrate renv devs r w).2.trace = destroyCount w.trace := by
  unfold Radar.calibrate
  cases ht : renv.calibTimeout
  · cases hs : renv.calibSuccess <;>
      simp [destroyCount_add_of_not, destroyCount_serviceExchanges, Event.isDestroy]
  · rfl

theorem destroyCount_radar_measure (renv : RadarEnv) (devs : Devices)
    (r : Radar RadarState.Ready) (buffer : List Nat) (w : World) :
    destroyCount (Radar.measure renv devs r buffer w).2.trace =
      destroyCount w.trace := by
  unfold Radar.measure
  by_cases h1 : buffer.length < renv.frameSize
  · simp [h1]
  · cases h2 : renv.measureTimeout <;>
      simp [h1, destroyCount_add_of_not, destroyCount_serviceExchanges, Event.isDestroy]

/-- C7: dropping an `InnerPresenceDetector` calls the engine's detector
destroy exactly once (the trace gains exactly one `detectorDestroy` event,
on the wrapper's own handle), dropping a `PresenceConfig` calls the
engine's config destroy exactly once, and no other operation of the core —
construction, buffer sizing, calibrate-and-prepare, measurement,
processing, or a bridge transfer — ever performs a destroy call. -/
theorem claim_c7_destroy_on_drop_only (i : InnerPresenceDetector)
    (cfg : PresenceConfig) (w : World) :
    (i.drop w).trace = w.trace ++ [Event.detectorDestroy i.inner] ∧
    (cfg.drop w).trace = w.trace ++ [Event.configDestroy cfg.inner] ∧
    (∀ (env : DetectorEnv) (cenv : ConfigEnv) (r : Radar RadarState.Ready)
        (w2 : World),
      destroyCount (PresenceDetector.new env cenv r w2).2.trace =
        destroyCount w2.trace) ∧
    (∀ (env : DetectorEnv) (r : Radar RadarState.Ready) (c : PresenceConfig)
        (w2 : World),
      destroyCount (PresenceDetector.with_config env r c w2).2.trace =
        destroyCount w2.trace) ∧
    (∀ (env : DetectorEnv) (d : PresenceDetector) (w2 : World),
      (d.get_buffer_size env w2).2 = w2) ∧
    (∀ (env : DetectorEnv) (renv : RadarEnv) (devs : Devices) (d : PresenceDetector)
        (b : List Nat) (w2 : World),
      destroyCount (PresenceDetector.calibrate_and_prepare env renv devs d b w2).2.trace =
        destroyCount w2.trace) ∧
    (∀ (renv : RadarEnv) (devs : Devices) (d : PresenceDetector) (b : List Nat)
        (w2 : World),
      destroyCount (PresenceDetector.measure renv devs d b w2).2.trace =
        destroyCount w2.trace) ∧
    (∀ (env : DetectorEnv) (d : PresenceDetector) (b : List Nat) (w2 : World),
      destroyCount (PresenceDetector.process_data env d b w2).2.trace =
        destroyCount w2.trace) ∧
    (∀ (devs : Devices) (b : List Nat) (w2 : World),
      destroyCount (AccHalImpl.transfer8_function devs b w2).2.trace =
        destroyCount w2.trace) := by
  refine ⟨rfl, rfl, ?_, ?_, ?_, ?_, ?_, ?_, ?_⟩
  · intro env cenv r w2
    simp [PresenceDetector.new, InnerPresenceDetector.new, PresenceConfig.default,
      destroyCount_add_of_not, Event.isDestroy]
  · intro env r c w2
    simp [PresenceDetector.with_config, InnerPresenceDetector.new,
      destroyCount_add_of_not, Event.isDestroy]
  · intro env d w2
    rfl
  · intro env renv devs d b w2
    unfold PresenceDetector.calibrate_and_prepare
    by_cases h : b.length < (d.get_buffer_size env w2).1
    · simp [h]
    · simp only [h, if_false]
      have hcal := destroyCount_calibrate renv devs d.radar w2
      rcases hc : Radar.calibrate renv devs d.radar w2 with ⟨res, w1⟩
      rw [hc] at hcal
      cases res with
      | error e => exact hcal
      | ok result =>
        cases hok : env.prepareSuccess d.inner.inner result.id b.length <;>
          simp [hok, destroyCount_add_of_not, Event.isDestroy, hcal]
  · intro renv devs d b w2
    exact destroyCount_radar_measure renv devs d.radar b w2
  · intro env d b w2
    cases hok : env.processSuccess b <;>
      simp [PresenceDetector.process_data, hok, destroyCount_add_of_not, Event.isDestroy]
  · intro devs b w2
    exact destroyCount_transfer8 devs b w2

end A121
